import Mathlib

/-!
Verification of the Guilt Meter core: the progress calculator and the
presentation mapper (color and motivational-message selection).

JavaScript numbers are embedded as rationals (the functions verified here
only add, divide, compare and round them), task lists as Lean lists, and
the nullable array indexing of the message lookup as Option-returning
indexing.
-/

namespace GuiltMeter

/-- A task as the core consumes it: a weight and a completion flag
(the identifier, title and timestamps play no role in the computation). -/
structure Task where
  weight : ℚ
  completed : Bool
deriving Repr, DecidableEq

/-- Derived progress record returned by the calculator. -/
structure ProgressState where
  totalTasks : ℕ
  completedTasks : ℕ
  progressPercentage : ℤ
  guiltPercentage : ℤ
deriving Repr, DecidableEq

/-- Sum of the weights of all tasks in the list. -/
def totalWeightOf (tasks : List Task) : ℚ :=
  (tasks.map (fun t => t.weight)).sum

/-- Sum of the weights of the completed tasks in the list. -/
def completedWeightOf (tasks : List Task) : ℚ :=
  ((tasks.filter (fun t => t.completed)).map (fun t => t.weight)).sum

/-- Modelled from the spec: the repository imports `calculateProgress` from
`src/lib/progress`, a file whose text is not part of the sources at hand;
this definition follows the contract in the spec, section 4.1:
totalTasks is the task count, completedTasks the count of tasks whose
completion flag is set, and the percentage is weighted,
`progressPercentage = round(100 * sum(weight of completed tasks) /
sum(weight of all tasks))`, returning 0 when the total weight or the total
task count is zero; `guiltPercentage = 100 - progressPercentage`. -/
def calculateProgress (tasks : List Task) : ProgressState :=
  let totalTasks := tasks.length
  let completedTasks := (tasks.filter (fun t => t.completed)).length
  let progressPercentage : ℤ :=
    if totalWeightOf tasks = 0 ∨ totalTasks = 0 then 0
    else round ((100 * completedWeightOf tasks) / totalWeightOf tasks)
  { totalTasks := totalTasks
    completedTasks := completedTasks
    progressPercentage := progressPercentage
    guiltPercentage := 100 - progressPercentage }

/-- One row of the motivational-message table: an inclusive guilt range
and its list of messages. -/
structure MotivationalMessage where
  minGuilt : ℚ
  maxGuilt : ℚ
  messages : List String
deriving Repr, DecidableEq

/-- The fixed message table of `src/config/messages`, six ranges of four
messages each. -/
def motivationalMessages : List MotivationalMessage :=
  [ { minGuilt := 0
      maxGuilt := 10
      messages :=
        [ "🎉 You did it! Guilt-free and fabulous!"
        , "✨ Amazing work! You\x27ve lifted all the weight!"
        , "🏆 Project complete! Go celebrate!"
        , "💪 Total victory! Time to rest and enjoy!" ] }
  , { minGuilt := 10
      maxGuilt := 25
      messages :=
        [ "🌟 Nearly there! Just a few tasks left!"
        , "📈 Incredible momentum! Keep it going!"
        , "🚀 You\x27re so close to the finish line!"
        , "✅ Fantastic progress! Almost home!" ] }
  , { minGuilt := 25
      maxGuilt := 50
      messages :=
        [ "💡 Great halfway point! You\x27re crushing it!"
        , "🎯 Solid progress! Keep the pace!"
        , "🌱 You\x27re building great momentum!"
        , "⚡ Half the battle is done – keep going!" ] }
  , { minGuilt := 50
      maxGuilt := 75
      messages :=
        [ "📍 You\x27ve got the hard work started – nice!"
        , "🌊 Getting there, one task at a time!"
        , "🎪 Progress is happening! Stay focused!"
        , "💼 Good start! Let\x27s build on this!" ] }
  , { minGuilt := 75
      maxGuilt := 90
      messages :=
        [ "👋 You\x27ve begun your journey – that\x27s the first step!"
        , "🔧 Every task matters. You\x27ve got this!"
        , "🌅 Just getting warmed up. One step at a time!"
        , "📚 Starting strong. Keep moving forward!" ] }
  , { minGuilt := 90
      maxGuilt := 100
      messages :=
        [ "💭 Take a breath. You don\x27t have to do it all today."
        , "🤝 This is a marathon, not a sprint. Begin when ready!"
        , "🌿 Be gentle with yourself. Small steps count!"
        , "📝 Ready to get started? Pick one task!" ] } ]

/-- The range lookup inside `getMotivationalMessage`:
`motivationalMessages.find(msg => guilt >= msg.minGuilt && guilt <= msg.maxGuilt)`. -/
def findRange (guiltPercentage : ℚ) : Option MotivationalMessage :=
  motivationalMessages.find?
    (fun msg => decide (msg.minGuilt ≤ guiltPercentage) &&
      decide (guiltPercentage ≤ msg.maxGuilt))

/-- The message picker of `src/config/messages`. The call to
`Math.random()` is embedded as the extra argument `r`, the random draw
from `[0,1)`; `Math.floor(Math.random() * range.messages.length)` becomes
`(round down of r * length).toNat`, and the non-null array indexing
`messages[randomIndex]!` becomes the Option-valued `List.get?`. -/
def getMotivationalMessage (guiltPercentage : ℚ) (r : ℚ) : Option String :=
  match findRange guiltPercentage with
  | none =>
      (motivationalMessages.get? (motivationalMessages.length - 1)).bind
        (fun m => m.messages.get? 0)
  | some range =>
      range.messages.get? (⌊r * (range.messages.length : ℚ)⌋).toNat

/-- The guilt-meter color function of `src/config/messages`, transcribed
branch for branch (the `>= 100` test comes first in the source). -/
def getGuiltMeterColor (guiltPercentage : ℚ) : String :=
  if guiltPercentage ≥ 100 then "#a166d3"
  else if guiltPercentage ≤ 10 then "#d9d9d9"
  else if guiltPercentage ≤ 25 then "#98fb98"
  else if guiltPercentage ≤ 50 then "#87ceeb"
  else if guiltPercentage ≤ 75 then "#ffd700"
  else "#ff69b4"

/-- The color selection as the spec words it: the six bands evaluated in
ascending order, first match wins, with the `>= 100` band last. Written
from the spec, to be compared with `getGuiltMeterColor` above. -/
def getGuiltMeterColorSpecOrder (guiltPercentage : ℚ) : String :=
  if guiltPercentage ≤ 10 then "#d9d9d9"
  else if guiltPercentage ≤ 25 then "#98fb98"
  else if guiltPercentage ≤ 50 then "#87ceeb"
  else if guiltPercentage ≤ 75 then "#ffd700"
  else if guiltPercentage < 100 then "#ff69b4"
  else "#a166d3"

/-- All message strings of the table, flattened in declaration order. -/
def allMessageStrings : List String :=
  (motivationalMessages.map (fun m => m.messages)).flatten

/-- Number of table ranges containing a given guilt percentage. -/
def countMatchingRanges (guiltPercentage : ℚ) : ℕ :=
  (motivationalMessages.filter
    (fun msg => decide (msg.minGuilt ≤ guiltPercentage) &&
      decide (guiltPercentage ≤ msg.maxGuilt))).length

section Helpers

lemma totalWeightOf_nil : totalWeightOf [] = 0 := rfl

lemma totalWeightOf_cons (t : Task) (l : List Task) :
    totalWeightOf (t :: l) = t.weight + totalWeightOf l := by
  simp [totalWeightOf]

lemma completedWeightOf_nil : completedWeightOf [] = 0 := rfl

lemma completedWeightOf_cons (t : Task) (l : List Task) :
    completedWeightOf (t :: l) =
      (if t.completed then t.weight else 0) + completedWeightOf l := by
  by_cases h : t.completed <;>
    simp [completedWeightOf, List.filter_cons, h]

lemma completedWeightOf_nonneg (l : List Task)
    (h : ∀ t ∈ l, 0 ≤ t.weight) : 0 ≤ completedWeightOf l := by
  induction l with
  | nil => simp [completedWeightOf_nil]
  | cons a l ih =>
      have ha := h a (List.mem_cons_self a l)
      have hl := ih (fun t ht => h t (List.mem_cons_of_mem a ht))
      rw [completedWeightOf_cons]
      by_cases hc : a.completed <;> simp [hc] <;> linarith

lemma completedWeightOf_le_totalWeightOf (l : List Task)
    (h : ∀ t ∈ l, 0 ≤ t.weight) :
    completedWeightOf l ≤ totalWeightOf l := by
  induction l with
  | nil => simp [completedWeightOf_nil, totalWeightOf_nil]
  | cons a l ih =>
      have ha := h a (List.mem_cons_self a l)
      have hl := ih (fun t ht => h t (List.mem_cons_of_mem a ht))
      rw [completedWeightOf_cons, totalWeightOf_cons]
      by_cases hc : a.completed <;> simp [hc] <;> linarith

lemma totalWeightOf_nonneg (l : List Task)
    (h : ∀ t ∈ l, 0 ≤ t.weight) : 0 ≤ totalWeightOf l := by
  induction l with
  | nil => simp [totalWeightOf_nil]
  | cons a l ih =>
      have ha := h a (List.mem_cons_self a l)
      have hl := ih (fun t ht => h t (List.mem_cons_of_mem a ht))
      rw [totalWeightOf_cons]
      linarith

lemma guiltPercentage_eq (l : List Task) :
    (calculateProgress l).guiltPercentage =
      100 - (calculateProgress l).progressPercentage := rfl

lemma completedTasks_eq (l : List Task) :
    (calculateProgress l).completedTasks =
      (l.filter (fun t => t.completed)).length := rfl

lemma totalTasks_eq (l : List Task) :
    (calculateProgress l).totalTasks = l.length := rfl

/-- With nonnegative weights the rounded weighted percentage lies in
`[0, 100]`. -/
lemma progressPercentage_bounds (l : List Task)
    (h : ∀ t ∈ l, 0 ≤ t.weight) :
    0 ≤ (calculateProgress l).progressPercentage ∧
      (calculateProgress l).progressPercentage ≤ 100 := by
  have hstep : (calculateProgress l).progressPercentage =
      if totalWeightOf l = 0 ∨ l.length = 0 then 0
      else round ((100 * completedWeightOf l) / totalWeightOf l) := rfl
  rw [hstep]
  split_ifs with hz
  · norm_num
  · push_neg at hz
    have htw0 : 0 ≤ totalWeightOf l := totalWeightOf_nonneg l h
    have htw : 0 < totalWeightOf l := lt_of_le_of_ne htw0 (Ne.symm hz.1)
    have hcw0 : 0 ≤ completedWeightOf l := completedWeightOf_nonneg l h
    have hcwle : completedWeightOf l ≤ totalWeightOf l :=
      completedWeightOf_le_totalWeightOf l h
    have hq0 : 0 ≤ (100 * completedWeightOf l) / totalWeightOf l := by
      positivity
    have hq100 : (100 * completedWeightOf l) / totalWeightOf l ≤ 100 := by
      rw [div_le_iff₀ htw]
      nlinarith
    constructor
    · rw [round_eq]
      exact Int.floor_nonneg.mpr (by linarith)
    · rw [round_eq]
      have : ⌊(100 * completedWeightOf l) / totalWeightOf l + 1 / 2⌋ <
          (101 : ℤ) := by
        rw [Int.floor_lt]
        push_cast
        linarith
      omega

lemma randomIndex_lt (r : ℚ) (n : ℕ) (hn : 0 < n) (h0 : 0 ≤ r)
    (h1 : r < 1) : (⌊r * (n : ℚ)⌋).toNat < n := by
  have hnq : (0 : ℚ) < (n : ℚ) := by exact_mod_cast hn
  have hlt : r * (n : ℚ) < (n : ℚ) := by nlinarith
  have hfl : ⌊r * (n : ℚ)⌋ < (n : ℤ) := by
    rw [Int.floor_lt]
    exact_mod_cast hlt
  have hge : (0 : ℤ) ≤ ⌊r * (n : ℚ)⌋ :=
    Int.floor_nonneg.mpr (by positivity)
  omega

/-- If the range lookup finds a nonempty range, the picker returns one of
the messages of that range, whichever value the random draw takes in
`[0,1)`. -/
lemma getMotivationalMessage_mem (g r : ℚ) (m : MotivationalMessage)
    (hm : findRange g = some m) (hlen : 0 < m.messages.length)
    (h0 : 0 ≤ r) (h1 : r < 1) :
    ∃ s, getMotivationalMessage g r = some s ∧ s ∈ m.messages := by
  unfold getMotivationalMessage
  rw [hm]
  have hidx := randomIndex_lt r m.messages.length hlen h0 h1
  refine ⟨m.messages.get ⟨(⌊r * (m.messages.length : ℚ)⌋).toNat, hidx⟩,
    List.get?_eq_get hidx, List.get_mem _ _ _⟩

lemma findRange_band0 (g : ℚ) (h0 : 0 ≤ g) (h1 : g ≤ 10) :
    findRange g = motivationalMessages.get? 0 := by
  unfold findRange motivationalMessages
  rw [List.find?_cons_of_pos _ (by simp [h0, h1])]
  rfl

lemma findRange_band1 (g : ℚ) (h0 : 10 < g) (h1 : g ≤ 25) :
    findRange g = motivationalMessages.get? 1 := by
  unfold findRange motivationalMessages
  rw [List.find?_cons_of_neg _ (by simp; intro; linarith)]
  rw [List.find?_cons_of_pos _ (by simp; constructor <;> linarith)]
  rfl

lemma findRange_band2 (g : ℚ) (h0 : 25 < g) (h1 : g ≤ 50) :
    findRange g = motivationalMessages.get? 2 := by
  unfold findRange motivationalMessages
  rw [List.find?_cons_of_neg _ (by simp; intro; linarith)]
  rw [List.find?_cons_of_neg _ (by simp; intro; linarith)]
  rw [List.find?_cons_of_pos _ (by simp; constructor <;> linarith)]
  rfl

lemma findRange_band3 (g : ℚ) (h0 : 50 < g) (h1 : g ≤ 75) :
    findRange g = motivationalMessages.get? 3 := by
  unfold findRange motivationalMessages
  rw [List.find?_cons_of_neg _ (by simp; intro; linarith)]
  rw [List.find?_cons_of_neg _ (by simp; intro; linarith)]
  rw [List.find?_cons_of_neg _ (by simp; intro; linarith)]
  rw [List.find?_cons_of_pos _ (by simp; constructor <;> linarith)]
  rfl

lemma findRange_band4 (g : ℚ) (h0 : 75 < g) (h1 : g ≤ 90) :
    findRange g = motivationalMessages.get? 4 := by
  unfold findRange motivationalMessages
  rw [List.find?_cons_of_neg _ (by simp; intro; linarith)]
  rw [List.find?_cons_of_neg _ (by simp; intro; linarith)]
  rw [List.find?_cons_of_neg _ (by simp; intro; linarith)]
  rw [List.find?_cons_of_neg _ (by simp; intro; linarith)]
  rw [List.find?_cons_of_pos _ (by simp; constructor <;> linarith)]
  rfl

lemma findRange_band5 (g : ℚ) (h0 : 90 < g) (h1 : g ≤ 100) :
    findRange g = motivationalMessages.get? 5 := by
  unfold findRange motivationalMessages
  rw [List.find?_cons_of_neg _ (by simp; intro; linarith)]
  rw [List.find?_cons_of_neg _ (by simp; intro; linarith)]
  rw [List.find?_cons_of_neg _ (by simp; intro; linarith)]
  rw [List.find?_cons_of_neg _ (by simp; intro; linarith)]
  rw [List.find?_cons_of_neg _ (by simp; intro; linarith)]
  rw [List.find?_cons_of_pos _ (by simp; constructor <;> linarith)]
  rfl

lemma findRange_isSome (g : ℚ) (h0 : 0 ≤ g) (h1 : g ≤ 100) :
    (findRange g).isSome = true := by
  rcases le_or_lt g 10 with c1 | c1
  · rw [findRange_band0 g h0 c1]; rfl
  rcases le_or_lt g 25 with c2 | c2
  · rw [findRange_band1 g c1 c2]; rfl
  rcases le_or_lt g 50 with c3 | c3
  · rw [findRange_band2 g c2 c3]; rfl
  rcases le_or_lt g 75 with c4 | c4
  · rw [findRange_band3 g c3 c4]; rfl
  rcases le_or_lt g 90 with c5 | c5
  · rw [findRange_band4 g c4 c5]; rfl
  · rw [findRange_band5 g c5 h1]; rfl

end Helpers

/-- C1: for every task list, the progress percentage is
`round (100 * completed weight / total weight)`, is `0` when the total
weight or the total task count is zero, and on the two-task list with
weights `[1, 3]` where only the weight-3 task is complete the calculator
returns 75 percent progress and 25 percent guilt. -/
theorem c1_weighted_progress_formula :
    (∀ tasks : List Task, totalWeightOf tasks ≠ 0 → tasks.length ≠ 0 →
      (calculateProgress tasks).progressPercentage =
        round ((100 * completedWeightOf tasks) / totalWeightOf tasks)) ∧
    (∀ tasks : List Task, totalWeightOf tasks = 0 ∨ tasks.length = 0 →
      (calculateProgress tasks).progressPercentage = 0) ∧
    calculateProgress [⟨1, false⟩, ⟨3, true⟩] = ⟨2, 1, 75, 25⟩ := by
  refine ⟨?_, ?_, ?_⟩
  · intro tasks hw hn
    show (if totalWeightOf tasks = 0 ∨ tasks.length = 0 then 0
      else round ((100 * completedWeightOf tasks) / totalWeightOf tasks)) = _
    rw [if_neg]
    push_neg
    exact ⟨hw, hn⟩
  · intro tasks h
    show (if totalWeightOf tasks = 0 ∨ tasks.length = 0 then 0
      else round ((100 * completedWeightOf tasks) / totalWeightOf tasks)) = 0
    rw [if_pos h]
  · simp only [calculateProgress, totalWeightOf, completedWeightOf]
    norm_num [List.filter, round_eq]

theorem c1_weighted_progress_formula_witness :
    (calculateProgress [⟨1, false⟩, ⟨3, true⟩]).progressPercentage =
      round ((100 * completedWeightOf [⟨1, false⟩, ⟨3, true⟩]) /
        totalWeightOf [⟨1, false⟩, ⟨3, true⟩]) ∧
    (calculateProgress ([] : List Task)).progressPercentage = 0 :=
  ⟨c1_weighted_progress_formula.1 _ (by simp [totalWeightOf]; norm_num)
      (by norm_num),
   c1_weighted_progress_formula.2.1 [] (Or.inr rfl)⟩

/-- C2: the guilt-meter color equals the result of evaluating the six
inclusive bands in ascending order with first match winning, and a guilt
percentage of 10 gets the soft silver color, not the pastel mint one. -/
theorem c2_color_bands_first_match :
    (∀ g : ℚ, getGuiltMeterColor g = getGuiltMeterColorSpecOrder g) ∧
    getGuiltMeterColor 10 = "#d9d9d9" ∧
    getGuiltMeterColor 10 ≠ "#98fb98" := by
  refine ⟨?_, by decide, by decide⟩
  intro g
  unfold getGuiltMeterColor getGuiltMeterColorSpecOrder
  split_ifs <;> first | rfl | linarith

/-- C3, counterexample: on the task list with weights `[-1, 3]` where only
the weight-3 task is complete, the calculator yields a progress percentage
of 150 and a guilt percentage of -50, so the two values are not confined
to `[0, 100]` for arbitrary task lists. -/
theorem c3_counterexample :
    (calculateProgress [⟨-1, false⟩, ⟨3, true⟩]).progressPercentage = 150 ∧
    (calculateProgress [⟨-1, false⟩, ⟨3, true⟩]).guiltPercentage = -50 := by
  simp only [calculateProgress, totalWeightOf, completedWeightOf]
  norm_num [List.filter, round_eq]

/-- C3, amended: for every task list the guilt percentage equals 100 minus
the progress percentage, and when every task weight is nonnegative both
percentages lie in `[0, 100]`. -/
theorem c3_guilt_complement :
    (∀ tasks : List Task,
      (calculateProgress tasks).guiltPercentage =
        100 - (calculateProgress tasks).progressPercentage) ∧
    (∀ tasks : List Task, (∀ t ∈ tasks, 0 ≤ t.weight) →
      0 ≤ (calculateProgress tasks).progressPercentage ∧
      (calculateProgress tasks).progressPercentage ≤ 100 ∧
      0 ≤ (calculateProgress tasks).guiltPercentage ∧
      (calculateProgress tasks).guiltPercentage ≤ 100) := by
  refine ⟨fun tasks => guiltPercentage_eq tasks, ?_⟩
  intro tasks h
  obtain ⟨h1, h2⟩ := progressPercentage_bounds tasks h
  rw [guiltPercentage_eq]
  omega

theorem c3_guilt_complement_witness :
    (calculateProgress [⟨1, false⟩, ⟨3, true⟩]).guiltPercentage =
      100 - (calculateProgress [⟨1, false⟩, ⟨3, true⟩]).progressPercentage ∧
    (0 ≤ (calculateProgress [⟨1, false⟩, ⟨3, true⟩]).progressPercentage ∧
      (calculateProgress [⟨1, false⟩, ⟨3, true⟩]).progressPercentage ≤ 100 ∧
      0 ≤ (calculateProgress [⟨1, false⟩, ⟨3, true⟩]).guiltPercentage ∧
      (calculateProgress [⟨1, false⟩, ⟨3, true⟩]).guiltPercentage ≤ 100) :=
  ⟨c3_guilt_complement.1 _, c3_guilt_complement.2 _ (by decide)⟩

/-- C4: each of the overlap points 10, 25, 50, 75 and 90 belongs to
exactly two table ranges, the lookup resolves each to the earlier range in
declaration order, and at guilt percentage 10 the picker always answers
with one of the four messages of the 0-10 range. -/
theorem c4_overlap_first_range_wins :
    countMatchingRanges 10 = 2 ∧ findRange 10 = motivationalMessages.get? 0 ∧
    countMatchingRanges 25 = 2 ∧ findRange 25 = motivationalMessages.get? 1 ∧
    countMatchingRanges 50 = 2 ∧ findRange 50 = motivationalMessages.get? 2 ∧
    countMatchingRanges 75 = 2 ∧ findRange 75 = motivationalMessages.get? 3 ∧
    countMatchingRanges 90 = 2 ∧ findRange 90 = motivationalMessages.get? 4 ∧
    (∀ r : ℚ, 0 ≤ r → r < 1 →
      ∃ s, getMotivationalMessage 10 r = some s ∧
        s ∈ [ "🎉 You did it! Guilt-free and fabulous!"
            , "✨ Amazing work! You\x27ve lifted all the weight!"
            , "🏆 Project complete! Go celebrate!"
            , "💪 Total victory! Time to rest and enjoy!" ]) := by
  refine ⟨by decide, by decide, by decide, by decide, by decide, by decide,
    by decide, by decide, by decide, by decide, ?_⟩
  intro r h0 h1
  have hfr : findRange 10 =
      some ⟨0, 10,
        [ "🎉 You did it! Guilt-free and fabulous!"
        , "✨ Amazing work! You\x27ve lifted all the weight!"
        , "🏆 Project complete! Go celebrate!"
        , "💪 Total victory! Time to rest and enjoy!" ]⟩ := by decide
  exact getMotivationalMessage_mem 10 r _ hfr (by decide) h0 h1

theorem c4_overlap_first_range_wins_witness :
    ∃ s, getMotivationalMessage 10 (1/2) = some s ∧
      s ∈ [ "🎉 You did it! Guilt-free and fabulous!"
          , "✨ Amazing work! You\x27ve lifted all the weight!"
          , "🏆 Project complete! Go celebrate!"
          , "💪 Total victory! Time to rest and enjoy!" ] :=
  c4_overlap_first_range_wins.2.2.2.2.2.2.2.2.2.2 (1/2)
    (by norm_num) (by norm_num)

/-- C5: the empty task list yields zero total tasks, zero completed tasks,
0 percent progress and 100 percent guilt. -/
theorem c5_empty_task_list :
    calculateProgress [] = ⟨0, 0, 0, 100⟩ := by
  simp [calculateProgress, totalWeightOf]

/-- C6: at guilt percentage 0, whatever value the random draw takes in
`[0,1)`, the picker answers with one of the four messages of the 0-10
range. -/
theorem c6_zero_guilt_message :
    ∀ r : ℚ, 0 ≤ r → r < 1 →
      ∃ s, getMotivationalMessage 0 r = some s ∧
        s ∈ [ "🎉 You did it! Guilt-free and fabulous!"
            , "✨ Amazing work! You\x27ve lifted all the weight!"
            , "🏆 Project complete! Go celebrate!"
            , "💪 Total victory! Time to rest and enjoy!" ] := by
  intro r h0 h1
  have hfr : findRange 0 =
      some ⟨0, 10,
        [ "🎉 You did it! Guilt-free and fabulous!"
        , "✨ Amazing work! You\x27ve lifted all the weight!"
        , "🏆 Project complete! Go celebrate!"
        , "💪 Total victory! Time to rest and enjoy!" ]⟩ := by decide
  exact getMotivationalMessage_mem 0 r _ hfr (by decide) h0 h1

theorem c6_zero_guilt_message_witness :
    ∃ s, getMotivationalMessage 0 (1/2) = some s ∧
      s ∈ [ "🎉 You did it! Guilt-free and fabulous!"
          , "✨ Amazing work! You\x27ve lifted all the weight!"
          , "🏆 Project complete! Go celebrate!"
          , "💪 Total victory! Time to rest and enjoy!" ] :=
  c6_zero_guilt_message (1/2) (by norm_num) (by norm_num)

/-- C7: whenever the range lookup finds nothing, the picker falls back to
the first message of the last (90-100) range, and for every guilt
percentage in `[0, 100]` the lookup does find a range, so the fallback is
unreachable under that precondition. -/
theorem c7_fallback_default :
    (∀ g r : ℚ, findRange g = none →
      getMotivationalMessage g r =
        some "💭 Take a breath. You don\x27t have to do it all today.") ∧
    (∀ g : ℚ, 0 ≤ g → g ≤ 100 → (findRange g).isSome = true) := by
  constructor
  · intro g r h
    unfold getMotivationalMessage
    rw [h]
    rfl
  · exact findRange_isSome

theorem c7_fallback_default_witness :
    getMotivationalMessage (-1) 0 =
      some "💭 Take a breath. You don\x27t have to do it all today." ∧
    (findRange 50).isSome = true :=
  ⟨c7_fallback_default.1 (-1) 0 (by decide),
   c7_fallback_default.2 50 (by norm_num) (by norm_num)⟩

/-- C8, counterexample: on the task list with weights `[-2, 3]` where only
the weight-3 task is complete, the calculator yields a progress percentage
of 300, so the bound of 100 fails when weights may be negative. -/
theorem c8_counterexample :
    100 < (calculateProgress [⟨-2, false⟩, ⟨3, true⟩]).progressPercentage := by
  simp only [calculateProgress, totalWeightOf, completedWeightOf]
  norm_num [List.filter, round_eq]

/-- C8, amended: for every task list the completed-task count is at most
the total task count, and when every task weight is nonnegative the
progress percentage lies in `[0, 100]`. -/
theorem c8_count_and_bounds :
    (∀ tasks : List Task,
      (calculateProgress tasks).completedTasks ≤
        (calculateProgress tasks).totalTasks) ∧
    (∀ tasks : List Task, (∀ t ∈ tasks, 0 ≤ t.weight) →
      0 ≤ (calculateProgress tasks).progressPercentage ∧
      (calculateProgress tasks).progressPercentage ≤ 100) := by
  constructor
  · intro tasks
    rw [completedTasks_eq, totalTasks_eq]
    exact List.length_filter_le _ _
  · exact progressPercentage_bounds

theorem c8_count_and_bounds_witness :
    (calculateProgress [⟨2, true⟩]).completedTasks ≤
      (calculateProgress [⟨2, true⟩]).totalTasks ∧
    (0 ≤ (calculateProgress [⟨2, true⟩]).progressPercentage ∧
      (calculateProgress [⟨2, true⟩]).progressPercentage ≤ 100) :=
  ⟨c8_count_and_bounds.1 _, c8_count_and_bounds.2 _ (by decide)⟩

/-- C9: the message table flattens to 24 strings, and for every guilt
percentage and every random draw in `[0,1)` the picker returns some
string, always one of those 24 - the indexing never falls outside a
message list. -/
theorem c9_picker_total_in_table :
    allMessageStrings.length = 24 ∧
    (∀ g r : ℚ, 0 ≤ r → r < 1 →
      ∃ s, getMotivationalMessage g r = some s ∧ s ∈ allMessageStrings) := by
  refine ⟨by decide, ?_⟩
  intro g r h0 h1
  cases hf : findRange g with
  | none =>
      refine ⟨"💭 Take a breath. You don\x27t have to do it all today.",
        ?_, by decide⟩
      unfold getMotivationalMessage
      rw [hf]
      rfl
  | some m =>
      have hmem : m ∈ motivationalMessages := List.mem_of_find?_eq_some hf
      have hlen : 0 < m.messages.length := by
        simp only [motivationalMessages] at hmem
        fin_cases hmem <;> decide
      obtain ⟨s, hs, hsm⟩ := getMotivationalMessage_mem g r m hf hlen h0 h1
      refine ⟨s, hs, ?_⟩
      unfold allMessageStrings
      exact List.mem_flatten.mpr
        ⟨m.messages, List.mem_map_of_mem _ hmem, hsm⟩

theorem c9_picker_total_in_table_witness :
    ∃ s, getMotivationalMessage 37 (1/3) = some s ∧
      s ∈ allMessageStrings :=
  c9_picker_total_in_table.2 37 (1/3) (by norm_num) (by norm_num)

/-- C10: for every rational input the guilt-meter color is one of the six
fixed hex constants, and every negative input gets the soft silver color. -/
theorem c10_color_totality :
    ∀ g : ℚ,
      getGuiltMeterColor g ∈
        ["#a166d3", "#d9d9d9", "#98fb98", "#87ceeb", "#ffd700", "#ff69b4"] ∧
      (g < 0 → getGuiltMeterColor g = "#d9d9d9") := by
  intro g
  constructor
  · unfold getGuiltMeterColor
    split_ifs <;> simp
  · intro hneg
    unfold getGuiltMeterColor
    split_ifs <;> first | rfl | linarith

theorem c10_color_totality_witness :
    getGuiltMeterColor (-5) = "#d9d9d9" ∧
    getGuiltMeterColor (-5) ∈
      ["#a166d3", "#d9d9d9", "#98fb98", "#87ceeb", "#ffd700", "#ff69b4"] :=
  ⟨(c10_color_totality (-5)).2 (by norm_num), (c10_color_totality (-5)).1⟩

end GuiltMeter
